import Mathlib

/-!
Shallow embedding of the expense form logic of
src/components/expenses/ExpenseForm.js: the expense validator, the
submission sanitizer prepareExpenseForSubmit, and the two step wizard
state of ExpenseFormBody.  Option models JavaScript null or undefined
fields; Bool fields model JavaScript truthiness of flag fields.  The two
external validation collaborators (validatePayoutMethod from
PayoutMethodForm and validateExpenseItem from ExpenseItemForm) are passed
as function parameters, since only their result maps are observable here.
-/

namespace ExpenseForm

/-- Identifier values as they appear in the JavaScript data: either an API
v2 string id or an API v1 numeric legacy id (the source inspects the
typeof of payee.id to choose the submit key, line 102). -/
inductive JsId where
  | str (s : String)
  | num (n : Int)
  deriving DecidableEq, Repr

/-- Expense types used by ExpenseForm.js (constants from
lib/constants/expenseTypes). -/
inductive ExpenseType where
  | RECEIPT
  | INVOICE
  | FUNDING_REQUEST
  deriving DecidableEq, Repr

/-- The two wizard steps (the STEPS constant of ExpenseForm.js). -/
inductive Step where
  | PAYEE
  | EXPENSE
  deriving DecidableEq, Repr

/-- The payeeLocation object: address and country. -/
structure Location where
  address : Option String
  country : Option String
  deriving DecidableEq, Repr

/-- Payee object.  The Bool fields model JavaScript truthiness of the
isInvite and isNewUser flags (an absent flag is falsy).  legacyId appears
only on sanitized output records. -/
structure Payee where
  id : Option JsId
  legacyId : Option JsId
  name : Option String
  email : Option String
  organization : Option String
  newsletterOptIn : Option Bool
  isInvite : Bool
  isNewUser : Bool
  location : Option Location
  deriving DecidableEq, Repr

/-- Payout method object, restricted to the five fields the sanitizer
picks (id, name, data, isSaved, type); data is kept as an opaque string
payload. -/
structure PayoutMethod where
  id : Option JsId
  name : Option String
  data : Option String
  isSaved : Option Bool
  type : Option String
  deriving DecidableEq, Repr

/-- Attached file object, restricted to the two fields the sanitizer
picks. -/
structure AttachedFile where
  id : Option JsId
  url : Option String
  deriving DecidableEq, Repr

/-- Expense item.  The __isNew flag marks an item created client side for
keying purposes; its id is then dropped on submit. -/
structure Item where
  id : Option JsId
  __isNew : Bool
  url : Option String
  description : Option String
  incurredAt : Option String
  amount : Option Int
  deriving DecidableEq, Repr

/-- The expense record held by the form.  items is always an array in the
form (getDefaultExpense initialises it to the empty array). -/
structure Expense where
  id : Option String
  type : Option ExpenseType
  description : Option String
  longDescription : Option String
  privateMessage : Option String
  invoiceInfo : Option String
  tags : Option (List String)
  currency : Option String
  payee : Option Payee
  payoutMethod : Option PayoutMethod
  payeeLocation : Option Location
  attachedFiles : Option (List AttachedFile)
  items : List Item
  deriving DecidableEq, Repr

/-- Error map produced by the external validateExpenseItem collaborator
for one item; only its emptiness is observable to this subsystem. -/
structure ItemErrors where
  hasError : Bool
  deriving DecidableEq, Repr

/-- Error map produced by the external validatePayoutMethod collaborator.
The data.currency leaf is tracked apart from the rest because
stepOneCompleted ignores exactly that leaf (line 198). -/
structure PMErrors where
  currency : Bool
  other : Bool
  deriving DecidableEq, Repr

/-- Lodash isEmpty on a payout method error map: no present leaf. -/
def PMErrors.isEmpty (p : PMErrors) : Bool := !p.currency && !p.other

/-- Error map of the expense validator.  A true flag means the key is
present in the JavaScript error object.  payoutMethodRequired is the flat
requireFields error at the payoutMethod key; the payoutMethod field holds
the nested collaborator error map stored at that same key (the two are
never set together: the collaborator only runs when the payout method is
present). -/
structure ExpenseErrors where
  description : Bool
  payee : Bool
  payee_id : Bool
  payee_name : Bool
  payee_email : Bool
  payoutMethodRequired : Bool
  currency : Bool
  items : Option (List ItemErrors)
  payoutMethod : Option PMErrors
  payeeLocation_country : Bool
  payeeLocation_address : Bool
  deriving DecidableEq, Repr

/-- The empty error object. -/
def emptyErrors : ExpenseErrors :=
  { description := false, payee := false, payee_id := false, payee_name := false,
    payee_email := false, payoutMethodRequired := false, currency := false,
    items := none, payoutMethod := none,
    payeeLocation_country := false, payeeLocation_address := false }

/-- JavaScript truthiness of a string field: null, undefined and the
empty string are falsy. -/
def strTruthy : Option String → Bool
  | none => false
  | some s => s != ""

/-- Field emptiness as tested by requireFields: nil or the empty
string. -/
def strMissing : Option String → Bool
  | none => true
  | some s => s == ""

/-- JavaScript truthiness of an id value: null, undefined, the empty
string and the number zero are falsy. -/
def idTruthy : Option JsId → Bool
  | none => false
  | some (JsId.str s) => s != ""
  | some (JsId.num n) => n != 0

/-- requireFields emptiness for an id value: nil or the empty string
(a number, including zero, is neither). -/
def idMissing : Option JsId → Bool
  | none => true
  | some (JsId.str s) => s == ""
  | some (JsId.num _) => false

/-- The expression values.payee?.isInvite with JavaScript optional
chaining. -/
def payeeIsInvite (v : Expense) : Bool :=
  match v.payee with
  | none => false
  | some p => p.isInvite

/-- The field paths the validator passes to requireFields. -/
inductive FieldPath where
  | description
  | payee
  | payee_id
  | payee_name
  | payee_email
  | payoutMethod
  | currency
  | payeeLocation_country
  | payeeLocation_address
  deriving DecidableEq, Repr

/-- Lodash style value lookup along a path, tested for the error
condition of requireFields (value nil or the empty string). -/
def fieldValueMissing (e : Expense) : FieldPath → Bool
  | FieldPath.description => strMissing e.description
  | FieldPath.payee => e.payee.isNone
  | FieldPath.payee_id => idMissing (e.payee.bind Payee.id)
  | FieldPath.payee_name => strMissing (e.payee.bind Payee.name)
  | FieldPath.payee_email => strMissing (e.payee.bind Payee.email)
  | FieldPath.payoutMethod => e.payoutMethod.isNone
  | FieldPath.currency => strMissing e.currency
  | FieldPath.payeeLocation_country => strMissing (e.payeeLocation.bind Location.country)
  | FieldPath.payeeLocation_address => strMissing (e.payeeLocation.bind Location.address)

/-- Modelled from the spec: requireFields lives in lib/form-utils, which
is not under src.  Per the spec, the validator performs a required fields
check where only present keys indicate errors; requireFields adds an
error at each requested path whose value is empty or absent. -/
def requireFields (e : Expense) (fields : List FieldPath) : ExpenseErrors :=
  { description := decide (FieldPath.description ∈ fields) && fieldValueMissing e FieldPath.description,
    payee := decide (FieldPath.payee ∈ fields) && fieldValueMissing e FieldPath.payee,
    payee_id := decide (FieldPath.payee_id ∈ fields) && fieldValueMissing e FieldPath.payee_id,
    payee_name := decide (FieldPath.payee_name ∈ fields) && fieldValueMissing e FieldPath.payee_name,
    payee_email := decide (FieldPath.payee_email ∈ fields) && fieldValueMissing e FieldPath.payee_email,
    payoutMethodRequired := decide (FieldPath.payoutMethod ∈ fields) && fieldValueMissing e FieldPath.payoutMethod,
    currency := decide (FieldPath.currency ∈ fields) && fieldValueMissing e FieldPath.currency,
    items := none,
    payoutMethod := none,
    payeeLocation_country := decide (FieldPath.payeeLocation_country ∈ fields) && fieldValueMissing e FieldPath.payeeLocation_country,
    payeeLocation_address := decide (FieldPath.payeeLocation_address ∈ fields) && fieldValueMissing e FieldPath.payeeLocation_address }

/-- Per item validation merge of validate (lines 140 to 146): the array of
item error maps is attached under items only when some item has an error;
the per item check itself is the external validateExpenseItem
collaborator, passed as the vItem parameter. -/
def addItemsErrors (vItem : Expense → Item → ItemErrors) (e : Expense)
    (errs : ExpenseErrors) : ExpenseErrors :=
  if e.items.length > 0 then
    let itemsErrors := e.items.map (vItem e)
    if itemsErrors.any (fun ie => ie.hasError) then { errs with items := some itemsErrors }
    else errs
  else errs

/-- Payout method validation merge of validate (lines 148 to 153): the
external collaborator result is attached under payoutMethod when not
empty. -/
def addPayoutMethodErrors (vPM : Option PayoutMethod → PMErrors) (e : Expense)
    (errs : ExpenseErrors) : ExpenseErrors :=
  match e.payoutMethod with
  | none => errs
  | some pm =>
    let pmErrors := vPM (some pm)
    if PMErrors.isEmpty pmErrors then errs
    else { errs with payoutMethod := some pmErrors }

/-- Invoice location requirement of validate (lines 155 to 157):
Object.assign of the requireFields result for payeeLocation.country and
payeeLocation.address onto the error object; a key present in the second
map overrides the first, an absent key leaves it. -/
def addInvoiceLocationErrors (e : Expense) (errs : ExpenseErrors) : ExpenseErrors :=
  if e.type = some ExpenseType.INVOICE then
    let req := requireFields e [FieldPath.payeeLocation_country, FieldPath.payeeLocation_address]
    { errs with
        payeeLocation_country := errs.payeeLocation_country || req.payeeLocation_country,
        payeeLocation_address := errs.payeeLocation_address || req.payeeLocation_address }
  else errs

/-- The expense validator (lines 131 to 160 of ExpenseForm.js), with the
two external collaborators passed as parameters.  An invited payee
returns early with only the requireFields result of its branch. -/
def validate (vPM : Option PayoutMethod → PMErrors) (vItem : Expense → Item → ItemErrors)
    (e : Expense) : ExpenseErrors :=
  if payeeIsInvite e then
    if idTruthy (e.payee.bind Payee.id) then
      requireFields e [FieldPath.description, FieldPath.payee, FieldPath.payee_id]
    else
      requireFields e
        [FieldPath.description, FieldPath.payee, FieldPath.payee_name, FieldPath.payee_email]
  else
    addInvoiceLocationErrors e
      (addPayoutMethodErrors vPM e
        (addItemsErrors vItem e
          (requireFields e
            [FieldPath.description, FieldPath.payee, FieldPath.payoutMethod, FieldPath.currency])))

/-- The payee object with no present field and falsy flags. -/
def emptyPayee : Payee :=
  { id := none, legacyId := none, name := none, email := none, organization := none,
    newsletterOptIn := none, isInvite := false, isNewUser := false, location := none }

/-- Lodash pick of the five payout method fields; pick of a nil object is
the empty object. -/
def pickPayoutMethod : Option PayoutMethod → PayoutMethod
  | none => { id := none, name := none, data := none, isSaved := none, type := none }
  | some pm => { id := pm.id, name := pm.name, data := pm.data, isSaved := pm.isSaved, type := pm.type }

/-- Lodash pick of address and country; pick of a nil object is the empty
object. -/
def pickLocation : Option Location → Location
  | none => { address := none, country := none }
  | some l => { address := l.address, country := l.country }

/-- Lodash pick of id and url on an attached file. -/
def pickAttachedFile (f : AttachedFile) : AttachedFile :=
  { id := f.id, url := f.url }

/-- The item pick of lines 116 to 124: id only when the item is not new,
never a url for invoices and funding requests; the __isNew flag itself is
dropped. -/
def pickItem (isInvoice isFundingRequest : Bool) (item : Item) : Item :=
  { id := if item.__isNew then none else item.id,
    __isNew := false,
    url := if isInvoice || isFundingRequest then none else item.url,
    description := item.description,
    incurredAt := item.incurredAt,
    amount := item.amount }

/-- prepareExpenseForSubmit (lines 100 to 126).  Returns none exactly when
the record has a nil payee: the non invite branch reads payee.id without a
guard and would throw a TypeError in JavaScript.  The top level pick of
line 110 keeps id, description, longDescription, type, privateMessage,
invoiceInfo and tags, and in particular drops currency. -/
def prepareExpenseForSubmit (expenseData : Expense) : Option Expense :=
  let isInvoice := decide (expenseData.type = some ExpenseType.INVOICE)
  let isFundingRequest := decide (expenseData.type = some ExpenseType.FUNDING_REQUEST)
  match expenseData.payee with
  | none => none
  | some pe =>
    let payee :=
      if pe.isNewUser || pe.isInvite then
        { emptyPayee with name := pe.name, email := pe.email,
                          organization := pe.organization, newsletterOptIn := pe.newsletterOptIn }
      else
        match pe.id with
        | some (JsId.str s) => { emptyPayee with id := some (JsId.str s) }
        | other => { emptyPayee with legacyId := other }
    some
      { id := expenseData.id,
        type := expenseData.type,
        description := expenseData.description,
        longDescription := expenseData.longDescription,
        privateMessage := expenseData.privateMessage,
        invoiceInfo := expenseData.invoiceInfo,
        tags := expenseData.tags,
        currency := none,
        payee := some payee,
        payoutMethod := some (pickPayoutMethod expenseData.payoutMethod),
        payeeLocation := if isInvoice then some (pickLocation expenseData.payeeLocation) else none,
        attachedFiles :=
          if isInvoice then expenseData.attachedFiles.map (fun fs => fs.map pickAttachedFile)
          else some [],
        items := expenseData.items.map (pickItem isInvoice isFundingRequest) }

/-- The expression values.type && values.description (line 192): the type
constants are nonempty strings, so the type is truthy when present. -/
def hasBaseFormFieldsCompleted (v : Expense) : Bool :=
  v.type.isSome && strTruthy v.description

/-- Modelled from the spec: flattenObjectDeep of lib/utils and lodash
isEmpty are not under src.  Per the spec, stepOneCompleted requires the
current error map to be empty apart from the payoutMethod.data.currency
leaf; this predicate states that the error map has no other present
leaf. -/
def errorsEmptyExceptPayoutCurrency (errs : ExpenseErrors) : Bool :=
  !errs.description && !errs.payee && !errs.payee_id && !errs.payee_name &&
  !errs.payee_email && !errs.payoutMethodRequired && !errs.currency &&
  (match errs.items with
   | none => true
   | some l => l.all (fun ie => !ie.hasError)) &&
  (match errs.payoutMethod with
   | none => true
   | some pm => !pm.other) &&
  !errs.payeeLocation_country && !errs.payeeLocation_address

/-- stepOneCompleted (lines 196 to 199). -/
def stepOneCompleted (v : Expense) (errs : ExpenseErrors) : Bool :=
  v.payoutMethod.isSome && errorsEmptyExceptPayoutCurrency errs &&
  (if v.type = some ExpenseType.RECEIPT then true
   else strTruthy (v.payeeLocation.bind Location.country) &&
        strTruthy (v.payeeLocation.bind Location.address))

/-- stepTwoCompleted (line 200). -/
def stepTwoCompleted (v : Expense) (errs : ExpenseErrors) : Bool :=
  if payeeIsInvite v then true
  else stepOneCompleted v errs && hasBaseFormFieldsCompleted v && decide (v.items.length > 0)

/-- The initial step state (line 202). -/
def initialStep (v : Expense) (errs : ExpenseErrors) : Step :=
  if stepOneCompleted v errs then Step.EXPENSE else Step.PAYEE

/-- The disabled condition of the submit button (line 491). -/
def submitDisabled (v : Expense) (errs : ExpenseErrors) (isValid : Bool) : Bool :=
  !stepTwoCompleted v errs || !isValid

/-- Transient UI state of the form body: record values, error map and
current wizard step. -/
structure FormState where
  values : Expense
  errors : ExpenseErrors
  step : Step
  deriving DecidableEq, Repr

/-- The effect run when values.type changes (lines 232 to 237): reset the
step to PAYEE and, outside drafts, clear an invited payee. -/
def onTypeChangeEffect (isDraft : Bool) (s : FormState) : FormState :=
  let s1 : FormState := { s with step := Step.PAYEE }
  if !isDraft && payeeIsInvite s1.values then
    { s1 with values := { s1.values with payee := none } }
  else s1

/-- The onNext handler of the payee step (lines 311 to 318): move to the
EXPENSE step when the payout method collaborator returns an empty map,
else replace the error state with that map stored under the payoutMethod
key. -/
def onNextPayee (vPM : Option PayoutMethod → PMErrors) (s : FormState) : FormState :=
  let validation := vPM s.values.payoutMethod
  if PMErrors.isEmpty validation then { s with step := Step.EXPENSE }
  else { s with errors := { emptyErrors with payoutMethod := some validation } }

/-- The expense record with no present field. -/
def emptyExpense : Expense :=
  { id := none, type := none, description := none, longDescription := none,
    privateMessage := none, invoiceInfo := none, tags := none, currency := none,
    payee := none, payoutMethod := none, payeeLocation := none,
    attachedFiles := none, items := [] }

/-- A payout method collaborator that never reports errors. -/
def noPMErrors : Option PayoutMethod → PMErrors :=
  fun _ => { currency := false, other := false }

/-- An item collaborator that never reports errors. -/
def noItemErrors : Expense → Item → ItemErrors :=
  fun _ _ => { hasError := false }

/-! Concrete records used by counterexamples and witnesses. -/

/-- An invoice for an invited payee whose location has no country. -/
def c1cex : Expense :=
  { emptyExpense with
      type := some ExpenseType.INVOICE,
      description := some "d",
      payee := some { emptyPayee with isInvite := true, id := some (JsId.str "p1") },
      payeeLocation := some { address := none, country := none } }

/-- An invoice record with no payee and no location country. -/
def c1w : Expense := { emptyExpense with type := some ExpenseType.INVOICE }

/-- An invited payee that has a name but no id and no email. -/
def c2cex : Expense :=
  { emptyExpense with
      description := some "d",
      payee := some { emptyPayee with isInvite := true, name := some "N" } }

/-- An invited payee with no id, no name and no email. -/
def c2w : Expense :=
  { emptyExpense with payee := some { emptyPayee with isInvite := true } }

/-- An invited payee with contact data, to be sanitized. -/
def c3cex : Expense :=
  { emptyExpense with
      type := some ExpenseType.RECEIPT,
      payee := some { emptyPayee with isInvite := true, name := some "N", email := some "n@x" } }

/-- A registered payee with a string id, an invoice and one persisted
item. -/
def c3w : Expense :=
  { emptyExpense with
      type := some ExpenseType.INVOICE,
      payee := some { emptyPayee with id := some (JsId.str "u1") },
      payeeLocation := some { address := some "a", country := some "FR" },
      items := [{ id := some (JsId.str "i1"), __isNew := false, url := some "u",
                  description := some "d", incurredAt := none, amount := some 5 }] }

/-- A draft form state holding an invited payee. -/
def c4cex : FormState :=
  { values := { emptyExpense with payee := some { emptyPayee with isInvite := true } },
    errors := emptyErrors,
    step := Step.EXPENSE }

/-- A non draft form state holding an invited payee. -/
def c4w : FormState :=
  { values := { emptyExpense with payee := some { emptyPayee with isInvite := true } },
    errors := emptyErrors,
    step := Step.EXPENSE }

/-- A funding request from an invited payee with one new item carrying a
url and a temporary id. -/
def c5ex : Expense :=
  { emptyExpense with
      type := some ExpenseType.FUNDING_REQUEST,
      payee := some { emptyPayee with isInvite := true, name := some "N", email := some "n@x" },
      items := [{ id := some (JsId.str "tmp"), __isNew := true, url := some "u",
                  description := some "d", incurredAt := none, amount := some 3 }] }

/-- The sanitized form of c5ex. -/
def c5prep : Expense := (prepareExpenseForSubmit c5ex).getD emptyExpense

/-- A form state in the PAYEE step. -/
def c8state : FormState :=
  { values := emptyExpense, errors := emptyErrors, step := Step.PAYEE }

/-- A payout method collaborator that always reports a non currency
error. -/
def c8vPM : Option PayoutMethod → PMErrors :=
  fun _ => { currency := false, other := true }

/-- An expense whose payee is an invited payee. -/
def c10w : Expense :=
  { emptyExpense with payee := some { emptyPayee with isInvite := true } }

/-! Claim theorems. -/

/-- C9: for every expense record whose payee is null or undefined,
prepareExpenseForSubmit is not defined (the unguarded read of payee.id in
the non invite branch fails); a non null payee is an unstated
precondition of the sanitizer. -/
theorem prepareExpenseForSubmit_none_of_no_payee (e : Expense) (h : e.payee = none) :
    prepareExpenseForSubmit e = none := by
  simp [prepareExpenseForSubmit, h]

theorem prepareExpenseForSubmit_none_of_no_payee_witness :
    prepareExpenseForSubmit emptyExpense = none :=
  prepareExpenseForSubmit_none_of_no_payee emptyExpense rfl

/-- C10: for every expense record whose payee has isInvite set, the
validator returns early from the invite branch, so its output never
contains error keys for payoutMethod (neither the required field error
nor the collaborator map), currency, items, or payeeLocation, whatever
the collaborators return. -/
theorem validate_invite_early_return (vPM : Option PayoutMethod → PMErrors)
    (vItem : Expense → Item → ItemErrors) (e : Expense) (h : payeeIsInvite e = true) :
    (validate vPM vItem e).payoutMethodRequired = false ∧
    (validate vPM vItem e).payoutMethod = none ∧
    (validate vPM vItem e).currency = false ∧
    (validate vPM vItem e).items = none ∧
    (validate vPM vItem e).payeeLocation_country = false ∧
    (validate vPM vItem e).payeeLocation_address = false := by
  unfold validate
  rw [h, if_pos rfl]
  split <;> simp [requireFields]

theorem validate_invite_early_return_witness :
    (validate noPMErrors noItemErrors c10w).payoutMethodRequired = false ∧
    (validate noPMErrors noItemErrors c10w).payoutMethod = none ∧
    (validate noPMErrors noItemErrors c10w).currency = false ∧
    (validate noPMErrors noItemErrors c10w).items = none ∧
    (validate noPMErrors noItemErrors c10w).payeeLocation_country = false ∧
    (validate noPMErrors noItemErrors c10w).payeeLocation_address = false :=
  validate_invite_early_return noPMErrors noItemErrors c10w rfl

/-- C6: for every form state, the step two completion predicate gating
the submit button is false whenever the items list is empty and the payee
is not an invited payee, so such a record can never be submitted: the
submit button stays disabled. -/
theorem stepTwoCompleted_requires_items (v : Expense) (errs : ExpenseErrors)
    (isValid : Bool) (hinv : payeeIsInvite v = false) (hitems : v.items = []) :
    stepTwoCompleted v errs = false ∧ submitDisabled v errs isValid = true := by
  unfold submitDisabled stepTwoCompleted
  rw [hinv, hitems]
  simp

theorem stepTwoCompleted_requires_items_witness :
    stepTwoCompleted emptyExpense emptyErrors = false ∧
    submitDisabled emptyExpense emptyErrors true = true :=
  stepTwoCompleted_requires_items emptyExpense emptyErrors true rfl rfl

/-- C8: on the explicit Next action of the PAYEE step, the state moves to
EXPENSE exactly when the payout method collaborator returns an empty
error map for the current payout method; on a non empty map the step
stays PAYEE and the error state becomes that map stored under the
payoutMethod key. -/
theorem onNextPayee_gate (vPM : Option PayoutMethod → PMErrors) (s : FormState)
    (hstep : s.step = Step.PAYEE) :
    ((onNextPayee vPM s).step = Step.EXPENSE ↔
      PMErrors.isEmpty (vPM s.values.payoutMethod) = true) ∧
    (PMErrors.isEmpty (vPM s.values.payoutMethod) = false →
      (onNextPayee vPM s).step = Step.PAYEE ∧
      (onNextPayee vPM s).errors = { emptyErrors with payoutMethod := some (vPM s.values.payoutMethod) }) := by
  unfold onNextPayee
  cases h : PMErrors.isEmpty (vPM s.values.payoutMethod) <;> simp [h, hstep]

theorem onNextPayee_gate_witness :
    (onNextPayee c8vPM c8state).step = Step.PAYEE ∧
    (onNextPayee c8vPM c8state).errors =
      { emptyErrors with payoutMethod := some (c8vPM c8state.values.payoutMethod) } :=
  (onNextPayee_gate c8vPM c8state rfl).2 rfl

/-- C1, counterexample: an invoice record with an empty location country
whose payee is an invited payee gets no error at payeeLocation.country,
because the invite branch of the validator returns early. -/
theorem validate_invoice_country_invite_cex :
    c1cex.type = some ExpenseType.INVOICE ∧
    strMissing (c1cex.payeeLocation.bind Location.country) = true ∧
    payeeIsInvite c1cex = true ∧
    (validate noPMErrors noItemErrors c1cex).payeeLocation_country = false := by
  decide

/-- C2, counterexample: an invited payee lacking both id and email but
carrying a name gets no error at payee.name. -/
theorem validate_invite_contact_cex :
    payeeIsInvite c2cex = true ∧
    c2cex.payee.bind Payee.id = none ∧
    c2cex.payee.bind Payee.email = none ∧
    (validate noPMErrors noItemErrors c2cex).payee_name = false := by
  decide

/-- C3, counterexample: sanitizing is not idempotent.  Sanitizing an
invited payee keeps only its contact fields, so the isInvite flag is
lost; sanitizing the result again maps the payee to a legacy id
reference, losing the contact fields. -/
theorem prepareExpenseForSubmit_not_idempotent_cex :
    (prepareExpenseForSubmit c3cex).isSome = true ∧
    (prepareExpenseForSubmit c3cex).bind prepareExpenseForSubmit ≠ prepareExpenseForSubmit c3cex := by
  decide

/-- C4, counterexample: when the form is a draft, the type change effect
does not clear an invited payee. -/
theorem onTypeChangeEffect_draft_cex :
    payeeIsInvite c4cex.values = true ∧
    (onTypeChangeEffect true c4cex).values.payee ≠ none := by
  decide

/-- The invoice location pass sets the country error whenever the country
value is empty or absent, whatever errors were already present. -/
theorem addInvoiceLocationErrors_country (e : Expense) (errs : ExpenseErrors)
    (ht : e.type = some ExpenseType.INVOICE)
    (hc : strMissing (e.payeeLocation.bind Location.country) = true) :
    (addInvoiceLocationErrors e errs).payeeLocation_country = true := by
  unfold addInvoiceLocationErrors
  rw [if_pos ht]
  simp [requireFields, fieldValueMissing, hc]

/-- C1, amended: for every expense record with type INVOICE whose
payeeLocation.country is empty or absent and whose payee is not an
invited payee, the error map of the validator contains an error under
payeeLocation.country.  Invited payees are excluded: the invite branch
returns early. -/
theorem validate_invoice_country_error (vPM : Option PayoutMethod → PMErrors)
    (vItem : Expense → Item → ItemErrors) (e : Expense)
    (hni : payeeIsInvite e = false)
    (ht : e.type = some ExpenseType.INVOICE)
    (hc : strMissing (e.payeeLocation.bind Location.country) = true) :
    (validate vPM vItem e).payeeLocation_country = true := by
  unfold validate
  rw [hni, if_neg (by simp)]
  exact addInvoiceLocationErrors_country e _ ht hc

theorem validate_invoice_country_error_witness :
    (validate noPMErrors noItemErrors c1w).payeeLocation_country = true :=
  validate_invoice_country_error noPMErrors noItemErrors c1w rfl rfl rfl

/-- C2, amended: for every expense record whose payee is an invited payee
lacking payee.id, payee.name and payee.email, the error map of the
validator contains errors under both payee.name and payee.email.  A
present name is excluded: requireFields only reports fields that are
actually empty. -/
theorem validate_invite_contact_errors (vPM : Option PayoutMethod → PMErrors)
    (vItem : Expense → Item → ItemErrors) (e : Expense) (pe : Payee)
    (hpe : e.payee = some pe) (hi : pe.isInvite = true)
    (hid : idTruthy pe.id = false)
    (hn : strMissing pe.name = true) (hm : strMissing pe.email = true) :
    (validate vPM vItem e).payee_name = true ∧ (validate vPM vItem e).payee_email = true := by
  have hinv : payeeIsInvite e = true := by simp [payeeIsInvite, hpe, hi]
  have hid2 : idTruthy (e.payee.bind Payee.id) = false := by
    rw [hpe]; simpa using hid
  unfold validate
  rw [hinv, if_pos rfl, hid2, if_neg (by simp)]
  constructor <;> simp [requireFields, fieldValueMissing, hpe, hn, hm]

theorem validate_invite_contact_errors_witness :
    (validate noPMErrors noItemErrors c2w).payee_name = true ∧
    (validate noPMErrors noItemErrors c2w).payee_email = true :=
  validate_invite_contact_errors noPMErrors noItemErrors c2w
    { emptyPayee with isInvite := true } rfl rfl rfl rfl rfl

/-- C4, amended: whenever the expense type changes the step is reset to
PAYEE unconditionally; an invited payee is cleared only when the form is
not a draft, and the record values are untouched otherwise. -/
theorem onTypeChangeEffect_resets_step (isDraft : Bool) (s : FormState) :
    (onTypeChangeEffect isDraft s).step = Step.PAYEE ∧
    ((!isDraft && payeeIsInvite s.values) = true →
      (onTypeChangeEffect isDraft s).values.payee = none) ∧
    ((!isDraft && payeeIsInvite s.values) = false →
      (onTypeChangeEffect isDraft s).values = s.values) := by
  unfold onTypeChangeEffect
  cases h : !isDraft && payeeIsInvite s.values <;> simp [h]

theorem onTypeChangeEffect_resets_step_witness :
    (onTypeChangeEffect false c4w).step = Step.PAYEE ∧
    (onTypeChangeEffect false c4w).values.payee = none :=
  ⟨(onTypeChangeEffect_resets_step false c4w).1,
   (onTypeChangeEffect_resets_step false c4w).2.1 rfl⟩

/-- Step one completion unfolded to the completeness predicate stated by
the spec. -/
theorem stepOneCompleted_iff (v : Expense) (errs : ExpenseErrors) :
    stepOneCompleted v errs = true ↔
      (v.payoutMethod.isSome = true ∧ errorsEmptyExceptPayoutCurrency errs = true ∧
       (v.type = some ExpenseType.RECEIPT ∨
        (strTruthy (v.payeeLocation.bind Location.country) = true ∧
         strTruthy (v.payeeLocation.bind Location.address) = true))) := by
  unfold stepOneCompleted
  by_cases hr : v.type = some ExpenseType.RECEIPT
  · simp [hr, Bool.and_eq_true]
  · simp [hr, Bool.and_eq_true]
    tauto

/-- C7: the initial step state is EXPENSE exactly when the step one
completeness predicate holds at mount: payout method present, error map
empty apart from the payoutMethod.data.currency leaf, and for non receipt
types a truthy payeeLocation country and address; otherwise it is
PAYEE. -/
theorem initialStep_expense_iff (v : Expense) (errs : ExpenseErrors) :
    initialStep v errs = Step.EXPENSE ↔
      (v.payoutMethod.isSome = true ∧ errorsEmptyExceptPayoutCurrency errs = true ∧
       (v.type = some ExpenseType.RECEIPT ∨
        (strTruthy (v.payeeLocation.bind Location.country) = true ∧
         strTruthy (v.payeeLocation.bind Location.address) = true))) := by
  rw [← stepOneCompleted_iff]
  unfold initialStep
  cases h : stepOneCompleted v errs <;> simp [h]

/-- The item pick is idempotent. -/
theorem pickItem_idem (inv fr : Bool) (it : Item) :
    pickItem inv fr (pickItem inv fr it) = pickItem inv fr it := by
  cases h : inv || fr <;> simp [pickItem, h]

/-- The payout method pick is idempotent. -/
theorem pickPayoutMethod_idem (x : Option PayoutMethod) :
    pickPayoutMethod (some (pickPayoutMethod x)) = pickPayoutMethod x := by
  cases x <;> rfl

/-- The location pick is idempotent. -/
theorem pickLocation_idem (x : Option Location) :
    pickLocation (some (pickLocation x)) = pickLocation x := by
  cases x <;> rfl

/-- The attached file pick keeps every modelled field. -/
theorem pickAttachedFile_eq (f : AttachedFile) : pickAttachedFile f = f := rfl

/-- Mapping the attached file pick over a list is the identity. -/
theorem map_pickAttachedFile (l : List AttachedFile) : l.map pickAttachedFile = l := by
  induction l with
  | nil => rfl
  | cons a t ih => simp [ih, pickAttachedFile_eq]

/-- Mapping the item pick twice is mapping it once. -/
theorem map_pickItem_idem (inv fr : Bool) (l : List Item) :
    (l.map (pickItem inv fr)).map (pickItem inv fr) = l.map (pickItem inv fr) := by
  induction l with
  | nil => rfl
  | cons a t ih => simp [ih, pickItem_idem]

/-- C3, amended: prepareExpenseForSubmit is idempotent on every record
whose payee is a registered profile (isInvite and isNewUser falsy) with a
string id.  It is not idempotent in general: for an invited or new user
payee the sanitized payee loses its discriminator flag, and for a numeric
legacy id the sanitized payee stores the id under legacyId where the
second pass no longer finds it. -/
theorem prepareExpenseForSubmit_idem_registered (e : Expense) (pe : Payee) (s : String)
    (hpe : e.payee = some pe) (hinvite : pe.isInvite = false) (hnew : pe.isNewUser = false)
    (hid : pe.id = some (JsId.str s)) :
    (prepareExpenseForSubmit e).bind prepareExpenseForSubmit = prepareExpenseForSubmit e := by
  cases h1 : prepareExpenseForSubmit e with
  | none => simp [prepareExpenseForSubmit, hpe] at h1
  | some p1 =>
    simp only [prepareExpenseForSubmit, hpe, hinvite, hnew, hid, Bool.or_self,
      Bool.false_eq_true, if_false, Option.some.injEq] at h1
    subst h1
    rw [Option.some_bind]
    by_cases hc : e.type = some ExpenseType.INVOICE <;>
      cases haf : e.attachedFiles <;>
        simp [prepareExpenseForSubmit, hc, haf, emptyPayee, pickPayoutMethod_idem,
          pickLocation_idem, map_pickItem_idem, map_pickAttachedFile, pickItem_idem]

theorem prepareExpenseForSubmit_idem_registered_witness :
    (prepareExpenseForSubmit c3w).bind prepareExpenseForSubmit = prepareExpenseForSubmit c3w :=
  prepareExpenseForSubmit_idem_registered c3w
    { emptyPayee with id := some (JsId.str "u1") } "u1" rfl rfl rfl rfl

/-- Zipping a list with its image under a map satisfies a pointwise
check. -/
theorem zip_map_all {α β : Type} (g : α → β) (l : List α) (p : α × β → Bool)
    (h : ∀ a, p (a, g a) = true) : (l.zip (l.map g)).all p = true := by
  induction l with
  | nil => rfl
  | cons a t ih => simp [h a, ih]

/-- C5: on every record where it is defined, prepareExpenseForSubmit
drops the id of every item flagged __isNew, omits item urls when the type
is INVOICE or FUNDING_REQUEST, sets payeeLocation to null unless the type
is INVOICE, and maps the payee to the inline signup subset (name, email,
organization, newsletterOptIn) when the isInvite or isNewUser
discriminator is set, else to an id only reference (under id for a string
id, under legacyId otherwise). -/
theorem prepareExpenseForSubmit_shape (e p : Expense) (pe : Payee)
    (hpe : e.payee = some pe) (hp : prepareExpenseForSubmit e = some p) :
    p.items.length = e.items.length ∧
    (e.items.zip p.items).all (fun pr => !pr.1.__isNew || pr.2.id.isNone) = true ∧
    ((e.type = some ExpenseType.INVOICE ∨ e.type = some ExpenseType.FUNDING_REQUEST) →
      p.items.all (fun it => it.url.isNone) = true) ∧
    (e.type ≠ some ExpenseType.INVOICE → p.payeeLocation = none) ∧
    ((pe.isNewUser || pe.isInvite) = true →
      p.payee = some { emptyPayee with
                        name := pe.name, email := pe.email,
                        organization := pe.organization,
                        newsletterOptIn := pe.newsletterOptIn }) ∧
    ((pe.isNewUser || pe.isInvite) = false →
      p.payee = some (match pe.id with
        | some (JsId.str s) => { emptyPayee with id := some (JsId.str s) }
        | other => { emptyPayee with legacyId := other })) := by
  simp only [prepareExpenseForSubmit, hpe, Option.some.injEq] at hp
  subst hp
  refine ⟨by simp, ?_, ?_, ?_, ?_, ?_⟩
  · exact zip_map_all _ _ _ (fun it => by cases hn : it.__isNew <;> simp [pickItem, hn])
  · intro h
    have hc : (decide (e.type = some ExpenseType.INVOICE) ||
        decide (e.type = some ExpenseType.FUNDING_REQUEST)) = true := by
      rcases h with h | h <;> simp [h]
    simp [List.all_map, Function.comp, pickItem, hc]
  · intro h
    simp [h]
  · intro h
    simp [h]
  · intro h
    simp [h]

theorem prepareExpenseForSubmit_shape_witness :
    c5prep.items.length = c5ex.items.length ∧
    (c5ex.items.zip c5prep.items).all (fun pr => !pr.1.__isNew || pr.2.id.isNone) = true ∧
    c5prep.items.all (fun it => it.url.isNone) = true ∧
    c5prep.payeeLocation = none ∧
    c5prep.payee = some { emptyPayee with name := some "N", email := some "n@x" } := by
  obtain ⟨h1, h2, h3, h4, h5, _⟩ :=
    prepareExpenseForSubmit_shape c5ex c5prep
      { emptyPayee with isInvite := true, name := some "N", email := some "n@x" } rfl rfl
  exact ⟨h1, h2, h3 (Or.inr rfl), h4 (by decide), h5 rfl⟩

end ExpenseForm
